import Mathlib

/-!
Shallow embedding of the gold-price predictive pipeline:
the regression engine, slope blender, prediction assembler,
news-sentiment engine, quick-stats aggregator and quote-source
orchestrator, together with theorems settling the spec claims.
Machine numbers, including millisecond timestamps, are modelled as
exact rationals.
-/

namespace GoldTrader

/-- Result record of `linearRegression` (slope, intercept, rSquared). -/
structure RegressionResult where
  slope : ℚ
  intercept : ℚ
  rSquared : ℚ
  deriving Repr, DecidableEq

/-- Sum of the x-values (indices `0..n-1`) used by `linearRegression`. -/
def sumX (n : ℕ) : ℚ := ∑ i in Finset.range n, (i : ℚ)

/-- Sum of squared x-values, mirroring the loop accumulator `sumX2`. -/
def sumX2 (n : ℕ) : ℚ := ∑ i in Finset.range n, (i : ℚ) * (i : ℚ)

/-- Sum of the y-values (the input list), mirroring the accumulator `sumY`. -/
def sumY (values : List ℚ) : ℚ :=
  ∑ i in Finset.range values.length, values.getD i 0

/-- Sum of `i * values[i]`, mirroring the accumulator `sumXY`. -/
def sumXY (values : List ℚ) : ℚ :=
  ∑ i in Finset.range values.length, (i : ℚ) * values.getD i 0

/-- The OLS denominator `n*sumX2 - sumX*sumX` from `linearRegression`. -/
def regDenom (n : ℕ) : ℚ := (n : ℚ) * sumX2 n - sumX n * sumX n

/-- The slope `(n*sumXY - sumX*sumY) / denominator` from `linearRegression`. -/
def regSlope (values : List ℚ) : ℚ :=
  ((values.length : ℚ) * sumXY values - sumX values.length * sumY values) /
    regDenom values.length

/-- The intercept `(sumY - slope*sumX) / n` from `linearRegression`. -/
def regIntercept (values : List ℚ) : ℚ :=
  (sumY values - regSlope values * sumX values.length) / (values.length : ℚ)

/-- Residual sum of squares `ssRes` computed by `linearRegression`
at the fitted slope and intercept. -/
def ssRes (values : List ℚ) : ℚ :=
  ∑ i in Finset.range values.length,
    (values.getD i 0 - (regSlope values * (i : ℚ) + regIntercept values)) ^ 2

/-- Total sum of squares `ssTot` about the mean `yMean = sumY / n`. -/
def ssTot (values : List ℚ) : ℚ :=
  ∑ i in Finset.range values.length,
    (values.getD i 0 - sumY values / (values.length : ℚ)) ^ 2

/-- `linearRegression` from the chart component: OLS over the closing
prices with x-values the indices `0..n-1`.  The loop of the source is
rendered as closed index sums; branch structure (the `n < 2` early
return and the zero-denominator guard) is kept verbatim.  The source
also accumulates `sumY2`, which it never reads; it is omitted here. -/
def linearRegression (values : List ℚ) : RegressionResult :=
  let n := values.length
  if n < 2 then { slope := 0, intercept := values.headD 0, rSquared := 0 }
  else if regDenom n = 0 then
    { slope := 0, intercept := sumY values / (n : ℚ), rSquared := 0 }
  else
    { slope := regSlope values
      intercept := regIntercept values
      rSquared := if 0 < ssTot values then 1 - ssRes values / ssTot values else 0 }

/-- Sum of squared residuals of an arbitrary affine candidate `a*x + b`
against the series, over the same index range as `linearRegression`. -/
def sse (values : List ℚ) (a b : ℚ) : ℚ :=
  ∑ i in Finset.range values.length, (values.getD i 0 - (a * (i : ℚ) + b)) ^ 2

theorem sumX_closed (n : ℕ) : sumX n = (n : ℚ) * ((n : ℚ) - 1) / 2 := by
  induction n with
  | zero => simp [sumX]
  | succ k ih =>
      rw [sumX, Finset.sum_range_succ, ← sumX, ih]
      push_cast
      ring

theorem sumX2_closed (n : ℕ) :
    sumX2 n = (n : ℚ) * ((n : ℚ) - 1) * (2 * (n : ℚ) - 1) / 6 := by
  induction n with
  | zero => simp [sumX2]
  | succ k ih =>
      rw [sumX2, Finset.sum_range_succ, ← sumX2, ih]
      push_cast
      ring

theorem regDenom_closed (n : ℕ) :
    regDenom n = (n : ℚ) ^ 2 * ((n : ℚ) ^ 2 - 1) / 12 := by
  rw [regDenom, sumX_closed, sumX2_closed]
  ring

theorem regDenom_pos {n : ℕ} (h : 2 ≤ n) : 0 < regDenom n := by
  have hn : (2 : ℚ) ≤ (n : ℚ) := by exact_mod_cast h
  rw [regDenom_closed]
  have h4 : (4 : ℚ) ≤ (n : ℚ) ^ 2 := by nlinarith [hn]
  nlinarith [h4]

theorem length_cast_ne_zero {values : List ℚ} (h : 2 ≤ values.length) :
    ((values.length : ℚ)) ≠ 0 := by
  have : (0 : ℚ) < (values.length : ℚ) := by exact_mod_cast Nat.lt_of_lt_of_le (by omega) h
  exact ne_of_gt this

/-- First normal equation: the fitted residuals sum to zero. -/
theorem sum_residuals (values : List ℚ) (h : 2 ≤ values.length) :
    ∑ i in Finset.range values.length,
      (values.getD i 0 - (regSlope values * (i : ℚ) + regIntercept values)) = 0 := by
  have hn := length_cast_ne_zero h
  have expand : ∑ i in Finset.range values.length,
      (values.getD i 0 - (regSlope values * (i : ℚ) + regIntercept values))
      = sumY values - (regSlope values * sumX values.length
          + (values.length : ℚ) * regIntercept values) := by
    rw [Finset.sum_sub_distrib, Finset.sum_add_distrib, ← Finset.mul_sum]
    rw [Finset.sum_const, Finset.card_range, nsmul_eq_mul]
    rfl
  rw [expand, regIntercept]
  field_simp

/-- Second normal equation: the x-weighted fitted residuals sum to zero. -/
theorem sum_x_residuals (values : List ℚ) (h : 2 ≤ values.length)
    (hd : regDenom values.length ≠ 0) :
    ∑ i in Finset.range values.length,
      (i : ℚ) * (values.getD i 0 - (regSlope values * (i : ℚ) + regIntercept values)) = 0 := by
  have hn := length_cast_ne_zero h
  have expand : ∑ i in Finset.range values.length,
      (i : ℚ) * (values.getD i 0 - (regSlope values * (i : ℚ) + regIntercept values))
      = sumXY values - (regSlope values * sumX2 values.length
          + regIntercept values * sumX values.length) := by
    have step : ∀ i ∈ Finset.range values.length,
        (i : ℚ) * (values.getD i 0 - (regSlope values * (i : ℚ) + regIntercept values))
        = (i : ℚ) * values.getD i 0 - (regSlope values * ((i : ℚ) * (i : ℚ))
            + regIntercept values * (i : ℚ)) := by
      intro i _
      ring
    rw [Finset.sum_congr rfl step, Finset.sum_sub_distrib, Finset.sum_add_distrib,
      ← Finset.mul_sum, ← Finset.mul_sum]
    rfl
  rw [expand, regIntercept, regSlope]
  rw [regDenom] at hd ⊢
  field_simp
  ring

/-- Decomposition of the sum of squared errors of any affine candidate
into the fitted `ssRes` plus a nonnegative correction. -/
theorem sse_decomp (values : List ℚ) (a b : ℚ) (h : 2 ≤ values.length)
    (hd : regDenom values.length ≠ 0) :
    sse values a b = ssRes values
      + ∑ i in Finset.range values.length,
          ((regSlope values - a) * (i : ℚ) + (regIntercept values - b)) ^ 2 := by
  have point : ∀ i ∈ Finset.range values.length,
      (values.getD i 0 - (a * (i : ℚ) + b)) ^ 2
      = (values.getD i 0 - (regSlope values * (i : ℚ) + regIntercept values)) ^ 2
        + ((regSlope values - a) * (i : ℚ) + (regIntercept values - b)) ^ 2
        + ((2 * (regSlope values - a))
            * ((i : ℚ) * (values.getD i 0 - (regSlope values * (i : ℚ) + regIntercept values)))
          + (2 * (regIntercept values - b))
            * (values.getD i 0 - (regSlope values * (i : ℚ) + regIntercept values))) := by
    intro i _
    ring
  rw [sse, Finset.sum_congr rfl point, Finset.sum_add_distrib, Finset.sum_add_distrib,
    Finset.sum_add_distrib, ← Finset.mul_sum, ← Finset.mul_sum,
    sum_x_residuals values h hd, sum_residuals values h,
    mul_zero, mul_zero, add_zero, add_zero]
  rfl

/-- The fitted line minimises the sum of squared residuals. -/
theorem ssRes_le_sse (values : List ℚ) (a b : ℚ) (h : 2 ≤ values.length)
    (hd : regDenom values.length ≠ 0) :
    ssRes values ≤ sse values a b := by
  rw [sse_decomp values a b h hd]
  have : 0 ≤ ∑ i in Finset.range values.length,
      ((regSlope values - a) * (i : ℚ) + (regIntercept values - b)) ^ 2 :=
    Finset.sum_nonneg fun _ _ => sq_nonneg _
  linarith

/-- `ssTot` is the squared error of the constant candidate at the mean. -/
theorem ssTot_eq_sse (values : List ℚ) :
    ssTot values = sse values 0 (sumY values / (values.length : ℚ)) := by
  rw [ssTot, sse]
  refine Finset.sum_congr rfl fun j _ => ?_
  ring

theorem ssRes_nonneg (values : List ℚ) : 0 ≤ ssRes values :=
  Finset.sum_nonneg fun _ _ => sq_nonneg _

/-- For `n ≥ 2`, neither degenerate branch of `linearRegression` fires. -/
theorem linearRegression_main (values : List ℚ) (h : 2 ≤ values.length) :
    linearRegression values
      = { slope := regSlope values
          intercept := regIntercept values
          rSquared := if 0 < ssTot values then 1 - ssRes values / ssTot values else 0 } := by
  have hd := regDenom_pos h
  have h2 : ¬ values.length < 2 := by omega
  rw [linearRegression]
  simp only [h2, if_false, if_neg (ne_of_gt hd)]

/-- C2: for every input of length at least 2 with non-zero variance of
the values, `linearRegression` (x-values the indices `0..n-1`) returns
the slope and intercept minimising the sum of squared residuals over
all affine candidates, and its `rSquared` lies in `[0, 1]`. -/
theorem claim_C2_ols_optimal (values : List ℚ) (a b : ℚ)
    (h2 : 2 ≤ values.length) (hvar : 0 < ssTot values) :
    sse values (linearRegression values).slope (linearRegression values).intercept
      ≤ sse values a b
    ∧ 0 ≤ (linearRegression values).rSquared
    ∧ (linearRegression values).rSquared ≤ 1 := by
  have hd := ne_of_gt (regDenom_pos h2)
  rw [linearRegression_main values h2]
  simp only [if_pos hvar]
  have hfit : sse values (regSlope values) (regIntercept values) = ssRes values := rfl
  refine ⟨?_, ?_, ?_⟩
  · rw [hfit]
    exact ssRes_le_sse values a b h2 hd
  · have hle : ssRes values ≤ ssTot values := by
      rw [ssTot_eq_sse]
      exact ssRes_le_sse values 0 _ h2 hd
    have hone : ssRes values / ssTot values ≤ 1 := (div_le_one hvar).mpr hle
    linarith
  · have h0 : 0 ≤ ssRes values / ssTot values :=
      div_nonneg (ssRes_nonneg values) (le_of_lt hvar)
    linarith

theorem claim_C2_witness :
    2 ≤ ([1, 2, 4] : List ℚ).length ∧ 0 < ssTot [1, 2, 4]
    ∧ (sse [1, 2, 4]
        (linearRegression [1, 2, 4]).slope (linearRegression [1, 2, 4]).intercept
        ≤ sse [1, 2, 4] 0 5
      ∧ 0 ≤ (linearRegression [1, 2, 4]).rSquared
      ∧ (linearRegression [1, 2, 4]).rSquared ≤ 1) :=
  ⟨by decide, by norm_num [ssTot, sumY, Finset.sum_range_succ],
    claim_C2_ols_optimal [1, 2, 4] 0 5 (by decide)
      (by norm_num [ssTot, sumY, Finset.sum_range_succ])⟩

/-- C4: `linearRegression` is total with the documented fallbacks: the
empty input gives slope 0, intercept 0, rSquared 0; a singleton gives
slope 0, intercept the single value, rSquared 0; and whenever the OLS
denominator `n*sumX2 - sumX*sumX` is zero the result is slope 0,
intercept `mean(y)`, rSquared 0. -/
theorem claim_C4_degenerate (v : ℚ) (values : List ℚ)
    (hd : regDenom values.length = 0) :
    linearRegression [] = { slope := 0, intercept := 0, rSquared := 0 }
    ∧ linearRegression [v] = { slope := 0, intercept := v, rSquared := 0 }
    ∧ ((linearRegression values).slope = 0
        ∧ (linearRegression values).intercept = sumY values / (values.length : ℚ)
        ∧ (linearRegression values).rSquared = 0) := by
  refine ⟨rfl, by simp [linearRegression], ?_⟩
  have hlt : values.length < 2 := by
    by_contra hge
    exact absurd hd (ne_of_gt (regDenom_pos (by omega)))
  match values, hlt with
  | [], _ => exact ⟨rfl, by simp [linearRegression, sumY], rfl⟩
  | [w], _ => exact ⟨rfl, by simp [linearRegression, sumY], rfl⟩

theorem claim_C4_witness :
    regDenom ([5] : List ℚ).length = 0
    ∧ (linearRegression [] = { slope := 0, intercept := 0, rSquared := 0 }
      ∧ linearRegression [(3 : ℚ)] = { slope := 0, intercept := 3, rSquared := 0 }
      ∧ ((linearRegression [(5 : ℚ)]).slope = 0
          ∧ (linearRegression [(5 : ℚ)]).intercept
              = sumY [(5 : ℚ)] / (([(5 : ℚ)] : List ℚ).length : ℚ)
          ∧ (linearRegression [(5 : ℚ)]).rSquared = 0)) :=
  ⟨by norm_num [regDenom_closed], claim_C4_degenerate 3 [5] (by norm_num [regDenom_closed])⟩

/-- Display timeframes of the gold chart (`'1h' | '6h' | '24h' | '7d'`). -/
inductive GoldTimeRange
  | h1
  | h6
  | h24
  | d7
  deriving Repr, DecidableEq

/-- Trend classification (`'bullish' | 'bearish' | 'neutral'`). -/
inductive Trend
  | bullish
  | bearish
  | neutral
  deriving Repr, DecidableEq

/-- One OHLCV sample of the chart series (`GoldPriceDataPoint`).
Timestamps are milliseconds; the `open` field is renamed `openPrice`
because `open` is a Lean keyword. -/
structure GoldPricePoint where
  timestamp : ℚ
  openPrice : ℚ
  high : ℚ
  low : ℚ
  close : ℚ
  volume : ℚ
  deriving Repr, DecidableEq, Inhabited

/-- One projected sample (`PredictionPoint`). -/
structure PredictionPoint where
  timestamp : ℚ
  value : ℚ
  deriving Repr, DecidableEq

/-- Result of the sentiment engine (`SentimentResult`); `lastUpdated`
is the `new Date()` capture at construction time. -/
structure SentimentResult where
  score : ℚ
  adjustmentPercent : ℚ
  confidence : ℚ
  triggerWords : List String
  summary : String
  headlines : List String
  lastUpdated : ℚ
  deriving Repr, DecidableEq

/-- Result of `calculatePrediction` (`PredictionResult`). -/
structure PredictionResult where
  points : List PredictionPoint
  slope : ℚ
  trend : Trend
  confidence : ℚ
  sentimentAdjustment : ℚ
  sentimentSummary : String
  deriving Repr, DecidableEq

/-- Per-timeframe prediction configuration (`PREDICTION_CONFIG`). -/
structure PredictionConfig where
  lookback : ℕ
  projectionPoints : ℕ
  intervalMs : ℚ
  deriving Repr, DecidableEq

/-- `PREDICTION_CONFIG` lookup table. -/
def PREDICTION_CONFIG : GoldTimeRange → PredictionConfig
  | .h1 => { lookback := 30, projectionPoints := 3, intervalMs := 2 * 60 * 1000 }
  | .h6 => { lookback := 40, projectionPoints := 3, intervalMs := 5 * 60 * 1000 }
  | .h24 => { lookback := 48, projectionPoints := 3, intervalMs := 15 * 60 * 1000 }
  | .d7 => { lookback := 50, projectionPoints := 3, intervalMs := 60 * 60 * 1000 }

/-- `blendWeights` lookup table inside `calculatePrediction`:
fraction of the local slope kept for each timeframe. -/
def blendWeights : GoldTimeRange → ℚ
  | .h1 => 0.3
  | .h6 => 0.5
  | .h24 => 0.7
  | .d7 => 1.0

/-- The slope blend of `calculatePrediction`, parametrised by the local
weight: the global slope (expressed per one-hour step of the 7d
reference series) is rescaled by `intervalMs / (60*60*1000)` — the
active timeframe's step expressed in hours — and combined as
`local*w + scaledGlobal*(1-w)`. -/
def blendSlopeWith (localSlope globalSlope intervalMs localWeight : ℚ) : ℚ :=
  let globalWeight := 1 - localWeight
  let localIntervalHours := intervalMs / (60 * 60 * 1000)
  let scaledGlobalSlope := globalSlope * localIntervalHours
  localSlope * localWeight + scaledGlobalSlope * globalWeight

/-- The slope blend as performed for a concrete timeframe, with the
weight drawn from the `blendWeights` table. -/
def blendSlope (localSlope globalSlope : ℚ) (range : GoldTimeRange) : ℚ :=
  blendSlopeWith localSlope globalSlope
    (PREDICTION_CONFIG range).intervalMs (blendWeights range)

/-- `adjustPredictionWithSentiment` from the sentiment service: apply
the (capped) percentage adjustment when confidence is sufficient. -/
def adjustPredictionWithSentiment (baseValue : ℚ) (sentimentResult : SentimentResult) : ℚ :=
  if sentimentResult.confidence < 0.3 then baseValue
  else baseValue * (1 + sentimentResult.adjustmentPercent / 100)

/-- `calculatePrediction` from the chart component.  The instance state
the method reads (`currentTimeRange`, `state.data`, `globalSlope`,
`state.sentiment`) is passed explicitly. -/
def calculatePrediction (range : GoldTimeRange) (data : List GoldPricePoint)
    (globalSlope : ℚ) (sentiment : Option SentimentResult) : Option PredictionResult :=
  let config := PREDICTION_CONFIG range
  if data.length < 10 then none
  else
    let lookbackData := data.drop (data.length - min config.lookback data.length)
    let prices := lookbackData.map (·.close)
    let reg := linearRegression prices
    let lastPoint := data.getLastD default
    let blendedSlope0 := blendSlope reg.slope globalSlope range
    let blendedSlope :=
      match sentiment with
      | some s =>
          if 0.3 ≤ s.confidence then
            blendedSlope0
              + lastPoint.close * (s.adjustmentPercent / 100) / (config.projectionPoints : ℚ)
          else blendedSlope0
      | none => blendedSlope0
    let sentimentAdjustment :=
      match sentiment with
      | some s => if 0.3 ≤ s.confidence then s.adjustmentPercent else 0
      | none => 0
    let sentimentSummary :=
      match sentiment with
      | some s => if 0.3 ≤ s.confidence then s.summary else ""
      | none => ""
    let firstPoint : PredictionPoint := { timestamp := lastPoint.timestamp, value := lastPoint.close }
    let futurePoints := (List.range config.projectionPoints).map fun j =>
      let i : ℚ := ((j + 1 : ℕ) : ℚ)
      let futureTimestamp := lastPoint.timestamp + i * config.intervalMs
      let projected := lastPoint.close + blendedSlope * i
      let projectedValue :=
        if sentimentAdjustment ≠ 0 then
          match sentiment with
          | some s => adjustPredictionWithSentiment projected s
          | none => projected
        else projected
      ({ timestamp := futureTimestamp, value := projectedValue } : PredictionPoint)
    let points := firstPoint :: futurePoints
    let lastPredPoint := points.getLastD firstPoint
    let totalChange := lastPredPoint.value - lastPoint.close
    let totalChangePercent := totalChange / lastPoint.close * 100
    let trend : Trend :=
      if 0.05 < totalChangePercent then .bullish
      else if totalChangePercent < -0.05 then .bearish
      else .neutral
    some
      { points := points
        slope := blendedSlope
        trend := trend
        confidence := max 0 (min 1 reg.rSquared)
        sentimentAdjustment := sentimentAdjustment
        sentimentSummary := sentimentSummary }

/-- C3: in the slope blend computed before any sentiment adjustment,
the global slope is rescaled by (active interval duration divided by
the one-hour global interval duration), and the blend is exactly
`local*w + rescaledGlobal*(1-w)`; at `w = 1` it equals the local
slope, at `w = 0` it equals the rescaled global slope. -/
theorem claim_C3_blend (l g im w : ℚ) (range : GoldTimeRange) :
    blendSlopeWith l g im w = l * w + g * (im / (60 * 60 * 1000)) * (1 - w)
    ∧ blendSlopeWith l g im 1 = l
    ∧ blendSlopeWith l g im 0 = g * (im / (60 * 60 * 1000))
    ∧ blendSlope l g range
        = blendSlopeWith l g (PREDICTION_CONFIG range).intervalMs (blendWeights range) := by
  refine ⟨rfl, ?_, ?_, rfl⟩
  · show l * 1 + g * (im / (60 * 60 * 1000)) * (1 - 1) = l
    ring
  · show l * 0 + g * (im / (60 * 60 * 1000)) * (1 - 0) = g * (im / (60 * 60 * 1000))
    ring

/-- C1: a series of length at least 10 always yields a prediction with
`projectionPoints + 1` points whose first point carries the last
historical point's timestamp and close verbatim, while any series of
length 9 or fewer yields no prediction. -/
theorem claim_C1_prediction (range : GoldTimeRange)
    (data dshort : List GoldPricePoint) (gs : ℚ) (sent : Option SentimentResult)
    (h : 10 ≤ data.length) (hs : dshort.length ≤ 9) :
    (∃ r, calculatePrediction range data gs sent = some r
      ∧ r.points.length = (PREDICTION_CONFIG range).projectionPoints + 1
      ∧ r.points.head? = some
          { timestamp := (data.getLastD default).timestamp
            value := (data.getLastD default).close })
    ∧ calculatePrediction range dshort gs sent = none := by
  constructor
  · rw [calculatePrediction.eq_def]
    simp only [if_neg (by omega : ¬ data.length < 10)]
    exact ⟨_, rfl, by simp, rfl⟩
  · rw [calculatePrediction.eq_def]
    simp only [if_pos (by omega : dshort.length < 10)]

/-- A concrete 10-point series used to witness C1. -/
def c1Series : List GoldPricePoint :=
  [{ timestamp := 0, openPrice := 1, high := 1, low := 1, close := 1, volume := 0 },
   { timestamp := 1, openPrice := 1, high := 1, low := 1, close := 2, volume := 0 },
   { timestamp := 2, openPrice := 1, high := 1, low := 1, close := 3, volume := 0 },
   { timestamp := 3, openPrice := 1, high := 1, low := 1, close := 4, volume := 0 },
   { timestamp := 4, openPrice := 1, high := 1, low := 1, close := 5, volume := 0 },
   { timestamp := 5, openPrice := 1, high := 1, low := 1, close := 6, volume := 0 },
   { timestamp := 6, openPrice := 1, high := 1, low := 1, close := 7, volume := 0 },
   { timestamp := 7, openPrice := 1, high := 1, low := 1, close := 8, volume := 0 },
   { timestamp := 8, openPrice := 1, high := 1, low := 1, close := 9, volume := 0 },
   { timestamp := 9, openPrice := 1, high := 1, low := 1, close := 10, volume := 0 }]

theorem claim_C1_witness :
    10 ≤ c1Series.length ∧ ([] : List GoldPricePoint).length ≤ 9
    ∧ ((∃ r, calculatePrediction .h1 c1Series 0 none = some r
        ∧ r.points.length = (PREDICTION_CONFIG .h1).projectionPoints + 1
        ∧ r.points.head? = some
            { timestamp := (c1Series.getLastD default).timestamp
              value := (c1Series.getLastD default).close })
      ∧ calculatePrediction .h1 ([] : List GoldPricePoint) 0 none = none) :=
  ⟨by decide, by decide,
    claim_C1_prediction .h1 c1Series [] 0 none (by decide) (by decide)⟩

/-- Character-wise lowercase, modelling `headline.toLowerCase()`. -/
def strToLower (s : String) : String := ⟨s.data.map Char.toLower⟩

/-- Substring test, modelling `haystack.includes(needle)`. -/
def strIncludes (haystack needle : String) : Bool :=
  go needle.data haystack.data
where
  go (needle : List Char) : List Char → Bool
    | [] => needle.isPrefixOf []
    | b :: bs => needle.isPrefixOf (b :: bs) || go needle bs

/-- Leading-substring test, modelling `t.startsWith(p)`. -/
def strStartsWith (s p : String) : Bool := p.data.isPrefixOf s.data

/-- `BULLISH_KEYWORDS` from the sentiment service. -/
def BULLISH_KEYWORDS : List String :=
  ["war", "attack", "missile", "military", "invasion", "conflict", "tension",
   "iran", "israel", "russia", "ukraine", "china", "taiwan", "north korea",
   "strike", "bomb", "escalation", "sanctions", "retaliation",
   "crash", "crisis", "recession", "collapse", "panic", "fear", "uncertainty",
   "default", "bankruptcy", "layoff", "downturn",
   "inflation", "cpi", "rising prices", "cost of living", "stagflation",
   "dollar weak", "dollar fall", "dxy down", "dollar decline", "usd falls",
   "rate cut", "dovish", "quantitative easing", "qe", "stimulus",
   "lower rates", "money printing", "fed pause",
   "gold rally", "gold surge", "gold record", "gold high", "gold demand",
   "central bank buying", "gold reserves", "safe haven", "safe-haven",
   "gold etf inflow", "gold price up", "gold bullish",
   "volatility", "vix spike", "risk off", "flight to safety"]

/-- `BEARISH_KEYWORDS` from the sentiment service. -/
def BEARISH_KEYWORDS : List String :=
  ["dollar strength", "dxy up", "dollar rally", "strong dollar", "usd rises",
   "rate hike", "hawkish", "taper", "tightening", "inflation cool",
   "fed raise", "higher rates", "interest rate increase",
   "market rally", "stocks surge", "risk on", "bull market", "optimism",
   "economic growth", "recovery", "strong jobs", "low unemployment",
   "gold fall", "gold drop", "gold decline", "gold selloff", "gold outflow",
   "gold bearish", "gold price down", "gold etf outflow",
   "ceasefire", "peace deal", "de-escalation", "resolution", "stability"]

/-- `HIGH_IMPACT_MULTIPLIERS` from the sentiment service. -/
def HIGH_IMPACT_MULTIPLIERS : List (String × ℚ) :=
  [("iran", 1.5), ("israel", 1.5), ("war", 2.0), ("attack", 1.8),
   ("missile", 1.7), ("nuclear", 2.0), ("rate cut", 1.5), ("rate hike", 1.5),
   ("recession", 1.8), ("crash", 1.8), ("fed", 1.3)]

/-- `HIGH_IMPACT_MULTIPLIERS[keyword] || 1`. -/
def multiplierFor (keyword : String) : ℚ :=
  ((HIGH_IMPACT_MULTIPLIERS.find? (fun p => p.1 == keyword)).map Prod.snd).getD 1

/-- Per-headline accumulator of `analyzeHeadline`. -/
structure HeadlineScore where
  score : ℚ
  weight : ℚ
  triggers : List String
  deriving Repr, DecidableEq

/-- One step of the bullish-keyword loop of `analyzeHeadline`. -/
def bullishStep (lower : String) (acc : HeadlineScore) (keyword : String) : HeadlineScore :=
  if strIncludes lower keyword then
    let multiplier := multiplierFor keyword
    { score := acc.score + 0.3 * multiplier
      weight := max acc.weight multiplier
      triggers := acc.triggers ++ ["+" ++ keyword] }
  else acc

/-- One step of the bearish-keyword loop of `analyzeHeadline`. -/
def bearishStep (lower : String) (acc : HeadlineScore) (keyword : String) : HeadlineScore :=
  if strIncludes lower keyword then
    let multiplier := multiplierFor keyword
    { score := acc.score - 0.3 * multiplier
      weight := max acc.weight multiplier
      triggers := acc.triggers ++ ["-" ++ keyword] }
  else acc

/-- `analyzeHeadline` from the sentiment service: scan both keyword
sets, track the maximal multiplier as the weight, clamp the score. -/
def analyzeHeadline (headline : String) : HeadlineScore :=
  let lower := strToLower headline
  let afterBullish := BULLISH_KEYWORDS.foldl (bullishStep lower)
    { score := 0, weight := 1, triggers := [] }
  let afterBearish := BEARISH_KEYWORDS.foldl (bearishStep lower) afterBullish
  { afterBearish with score := max (-1) (min 1 afterBearish.score) }

/-- The aggregation loop of `analyzeHeadlines`: running
`(totalScore, totalWeight, allTriggers)`. -/
def sentimentTotals (headlines : List String) : ℚ × ℚ × List String :=
  headlines.foldl
    (fun acc headline =>
      let result := analyzeHeadline headline
      (acc.1 + result.score * result.weight, acc.2.1 + result.weight,
        acc.2.2 ++ result.triggers))
    (0, 0, [])

/-- First-occurrence deduplication, modelling `[...new Set(xs)]`. -/
def uniqStrings (xs : List String) : List String :=
  xs.foldl (fun acc x => if x ∈ acc then acc else acc ++ [x]) []

/-- `analyzeHeadlines` from the sentiment service; `now` stands for the
`new Date()` captured in `lastUpdated`. -/
def analyzeHeadlines (headlines : List String) (now : ℚ) : SentimentResult :=
  if headlines.length = 0 then
    { score := 0, adjustmentPercent := 0, confidence := 0, triggerWords := []
      summary := "No headlines to analyze", headlines := [], lastUpdated := now }
  else
    let totals := sentimentTotals headlines
    let totalScore := totals.1
    let totalWeight := totals.2.1
    let allTriggers := totals.2.2
    let avgScore := if 0 < totalWeight then totalScore / totalWeight else 0
    let adjustmentPercent := avgScore * 3
    let triggerCount := allTriggers.length
    let confidence := min 1 ((triggerCount : ℚ) / ((headlines.length : ℚ) * 2))
    let summary :=
      if 0.3 < avgScore then
        "Bullish for Gold: "
          ++ String.intercalate ", "
              ((allTriggers.filter (fun t => strStartsWith t "+")).take 3)
      else if avgScore < -0.3 then
        "Bearish for Gold: "
          ++ String.intercalate ", "
              ((allTriggers.filter (fun t => strStartsWith t "-")).take 3)
      else if 0 < allTriggers.length then "Mixed signals - neutral stance"
      else "Neutral sentiment"
    { score := avgScore
      adjustmentPercent := adjustmentPercent
      confidence := confidence
      triggerWords := (uniqStrings allTriggers).take 10
      summary := summary
      headlines := headlines.take 10
      lastUpdated := now }

/-- `CACHE_TTL` (five minutes, in milliseconds). -/
def CACHE_TTL : ℚ := 5 * 60 * 1000

/-- `getFallbackSentiment` from the sentiment service: the cached
result at half confidence when a cache exists, else a zero-confidence
neutral result with an empty summary. -/
def getFallbackSentiment (cachedSentiment : Option SentimentResult) (now : ℚ) :
    SentimentResult :=
  match cachedSentiment with
  | some c => { c with confidence := c.confidence * 0.5 }
  | none =>
    { score := 0, adjustmentPercent := 0, confidence := 0, triggerWords := []
      summary := "", headlines := [], lastUpdated := now }

/-- Outcome of the GDELT fetch inside `fetchAndAnalyzeSentiment`: a
thrown error, a non-ok response, or a parsed article list (titles may
be missing). -/
inductive NewsFetchOutcome
  | fetchError
  | notOk
  | ok (articles : List (Option String))
  deriving Repr, DecidableEq

/-- The surviving headlines: string titles longer than 10 characters,
first 30 kept. -/
def survivingHeadlines (articles : List (Option String)) : List String :=
  ((articles.filterMap id).filter (fun t => 10 < t.length)).take 30

/-- The body of `fetchAndAnalyzeSentiment` past the cache check. -/
def fetchFresh (cachedSentiment : Option SentimentResult) (now : ℚ)
    (outcome : NewsFetchOutcome) : SentimentResult :=
  match outcome with
  | .fetchError => getFallbackSentiment cachedSentiment now
  | .notOk => getFallbackSentiment cachedSentiment now
  | .ok articles =>
    let headlines := survivingHeadlines articles
    if headlines.length = 0 then getFallbackSentiment cachedSentiment now
    else analyzeHeadlines headlines now

/-- `fetchAndAnalyzeSentiment` from the sentiment service, with the
module-level cache state and the fetch outcome passed explicitly. -/
def fetchAndAnalyzeSentiment (cachedSentiment : Option SentimentResult)
    (cacheTimestamp now : ℚ) (outcome : NewsFetchOutcome) : SentimentResult :=
  match cachedSentiment with
  | some c =>
    if now - cacheTimestamp < CACHE_TTL then c
    else fetchFresh cachedSentiment now outcome
  | none => fetchFresh cachedSentiment now outcome

/-- A fetch attempt counts as failed when the request threw, the
response was non-ok, or no surviving headlines remain. -/
def isFetchFailure : NewsFetchOutcome → Prop
  | .fetchError => True
  | .notOk => True
  | .ok articles => survivingHeadlines articles = []

/-- C5: on any fetch failure (stale or absent cache, and a thrown
fetch, non-ok status, or no surviving headlines), the sentiment
component returns the cached result at half confidence when a cache
exists and otherwise a neutral zero-confidence result with an empty
summary — never an error. -/
theorem claim_C5_sentiment_fallback (cached : Option SentimentResult)
    (c : SentimentResult) (cacheTimestamp now : ℚ) (outcome : NewsFetchOutcome)
    (hstale : cached = none ∨ ¬ now - cacheTimestamp < CACHE_TTL)
    (hfail : isFetchFailure outcome) :
    fetchAndAnalyzeSentiment cached cacheTimestamp now outcome
      = getFallbackSentiment cached now
    ∧ getFallbackSentiment (some c) now = { c with confidence := c.confidence * 0.5 }
    ∧ getFallbackSentiment none now
        = { score := 0, adjustmentPercent := 0, confidence := 0, triggerWords := []
            summary := "", headlines := [], lastUpdated := now } := by
  refine ⟨?_, rfl, rfl⟩
  have hfresh : fetchAndAnalyzeSentiment cached cacheTimestamp now outcome
      = fetchFresh cached now outcome := by
    match cached, hstale with
    | none, _ => rfl
    | some c0, hstale =>
      rcases hstale with h | h
      · exact absurd h (by simp)
      · simp only [fetchAndAnalyzeSentiment, if_neg h]
  rw [hfresh]
  match outcome, hfail with
  | .fetchError, _ => rfl
  | .notOk, _ => rfl
  | .ok articles, hfail =>
    simp only [fetchFresh]
    rw [if_pos (by rw [hfail]; rfl)]

theorem claim_C5_witness :
    ((some { score := 0.5, adjustmentPercent := 1.5, confidence := 0.8,
             triggerWords := ["+war"], summary := "Bullish for Gold: +war",
             headlines := ["gold war"], lastUpdated := 0 } : Option SentimentResult) = none
      ∨ ¬ (400000 : ℚ) - 0 < CACHE_TTL)
    ∧ isFetchFailure .fetchError
    ∧ (fetchAndAnalyzeSentiment
          (some { score := 0.5, adjustmentPercent := 1.5, confidence := 0.8,
                  triggerWords := ["+war"], summary := "Bullish for Gold: +war",
                  headlines := ["gold war"], lastUpdated := 0 })
          0 400000 .fetchError
        = getFallbackSentiment
            (some { score := 0.5, adjustmentPercent := 1.5, confidence := 0.8,
                    triggerWords := ["+war"], summary := "Bullish for Gold: +war",
                    headlines := ["gold war"], lastUpdated := 0 })
            400000
      ∧ getFallbackSentiment
            (some { score := 0.5, adjustmentPercent := 1.5, confidence := 0.8,
                    triggerWords := ["+war"], summary := "Bullish for Gold: +war",
                    headlines := ["gold war"], lastUpdated := 0 })
            400000
          = { score := 0.5, adjustmentPercent := 1.5, confidence := (0.8 : ℚ) * 0.5,
              triggerWords := ["+war"], summary := "Bullish for Gold: +war",
              headlines := ["gold war"], lastUpdated := 0 }
      ∧ getFallbackSentiment none 400000
          = { score := 0, adjustmentPercent := 0, confidence := 0, triggerWords := []
              summary := "", headlines := [], lastUpdated := 400000 }) :=
  ⟨Or.inr (by norm_num [CACHE_TTL]), trivial,
    claim_C5_sentiment_fallback _ _ 0 400000 .fetchError
      (Or.inr (by norm_num [CACHE_TTL])) trivial⟩

/-- C6 counterexample: on the empty headline list the summary is the
fixed placeholder text, not the empty string the claim demands. -/
theorem claim_C6_counterexample :
    (analyzeHeadlines [] 0).score = 0
    ∧ (analyzeHeadlines [] 0).confidence = 0
    ∧ (analyzeHeadlines [] 0).summary = "No headlines to analyze"
    ∧ ¬ (analyzeHeadlines [] 0).summary = "" :=
  ⟨rfl, rfl, rfl, by decide⟩

/-- C6 (amended): `analyzeHeadlines []` returns score 0, adjustment 0,
confidence 0, no triggers, and the fixed summary
`"No headlines to analyze"`. -/
theorem claim_C6_empty (now : ℚ) :
    analyzeHeadlines [] now
      = { score := 0, adjustmentPercent := 0, confidence := 0, triggerWords := []
          summary := "No headlines to analyze", headlines := [], lastUpdated := now } := rfl

/-- C9: `analyzeHeadlines` is deterministic in the headline list: all
fields except the construction timestamp `lastUpdated` agree between
any two invocations on the same input. -/
theorem claim_C9_deterministic (hs : List String) (now1 now2 : ℚ) :
    (analyzeHeadlines hs now1).score = (analyzeHeadlines hs now2).score
    ∧ (analyzeHeadlines hs now1).adjustmentPercent
        = (analyzeHeadlines hs now2).adjustmentPercent
    ∧ (analyzeHeadlines hs now1).confidence = (analyzeHeadlines hs now2).confidence
    ∧ (analyzeHeadlines hs now1).triggerWords = (analyzeHeadlines hs now2).triggerWords
    ∧ (analyzeHeadlines hs now1).summary = (analyzeHeadlines hs now2).summary
    ∧ (analyzeHeadlines hs now1).headlines = (analyzeHeadlines hs now2).headlines := by
  by_cases h : hs.length = 0 <;>
    simp [analyzeHeadlines, h]

theorem foldl_weight_le (f : String → HeadlineScore → String → HeadlineScore)
    (lower : String)
    (hf : ∀ acc kw, acc.weight ≤ (f lower acc kw).weight) :
    ∀ (kws : List String) (acc : HeadlineScore),
      acc.weight ≤ (kws.foldl (f lower) acc).weight
  | [], _ => le_refl _
  | kw :: kws, acc =>
      le_trans (hf acc kw) (foldl_weight_le f lower hf kws (f lower acc kw))

theorem bullishStep_weight (lower : String) (acc : HeadlineScore) (kw : String) :
    acc.weight ≤ (bullishStep lower acc kw).weight := by
  rw [bullishStep]
  split
  · exact le_max_left _ _
  · exact le_refl _

theorem bearishStep_weight (lower : String) (acc : HeadlineScore) (kw : String) :
    acc.weight ≤ (bearishStep lower acc kw).weight := by
  rw [bearishStep]
  split
  · exact le_max_left _ _
  · exact le_refl _

/-- Each headline weight starts at one and is only ever raised. -/
theorem analyzeHeadline_weight (h : String) : 1 ≤ (analyzeHeadline h).weight := by
  rw [analyzeHeadline]
  refine le_trans ?_ (foldl_weight_le bearishStep (strToLower h) (bearishStep_weight _) _ _)
  exact foldl_weight_le bullishStep (strToLower h) (bullishStep_weight _) _
    { score := 0, weight := 1, triggers := [] }

theorem sentimentTotals_weight_aux (hs : List String) :
    ∀ acc : ℚ × ℚ × List String,
      (hs.foldl
        (fun acc headline =>
          let result := analyzeHeadline headline
          (acc.1 + result.score * result.weight, acc.2.1 + result.weight,
            acc.2.2 ++ result.triggers))
        acc).2.1
      = acc.2.1 + (hs.map (fun h => (analyzeHeadline h).weight)).sum := by
  induction hs with
  | nil => intro acc; simp
  | cons h t ih =>
      intro acc
      rw [List.foldl_cons, ih, List.map_cons, List.sum_cons]
      ring

/-- The aggregated denominator is the sum of the headline weights. -/
theorem sentimentTotals_weight (hs : List String) :
    (sentimentTotals hs).2.1 = (hs.map (fun h => (analyzeHeadline h).weight)).sum := by
  rw [sentimentTotals, sentimentTotals_weight_aux]
  simp

theorem weights_sum_ge_length (hs : List String) :
    (hs.length : ℚ) ≤ (hs.map (fun h => (analyzeHeadline h).weight)).sum := by
  induction hs with
  | nil => simp
  | cons h t ih =>
      rw [List.map_cons, List.sum_cons, List.length_cons]
      push_cast
      have := analyzeHeadline_weight h
      linarith

/-- C10: every headline weight is at least 1, so for a non-empty list
the denominator is at least the headline count and strictly positive;
the zero-denominator fallback of the score is unreachable and the
score is the weighted quotient. -/
theorem claim_C10_denominator (h : String) (hs : List String) (now : ℚ)
    (hne : hs ≠ []) :
    1 ≤ (analyzeHeadline h).weight
    ∧ (hs.length : ℚ) ≤ (sentimentTotals hs).2.1
    ∧ 0 < (sentimentTotals hs).2.1
    ∧ (analyzeHeadlines hs now).score = (sentimentTotals hs).1 / (sentimentTotals hs).2.1 := by
  have hlen : (1 : ℚ) ≤ (hs.length : ℚ) := by
    have : 1 ≤ hs.length := by
      cases hs with
      | nil => exact absurd rfl hne
      | cons a t => simp
    exact_mod_cast this
  have hw : (hs.length : ℚ) ≤ (sentimentTotals hs).2.1 := by
    rw [sentimentTotals_weight]
    exact weights_sum_ge_length hs
  have hpos : 0 < (sentimentTotals hs).2.1 := by linarith
  refine ⟨analyzeHeadline_weight h, hw, hpos, ?_⟩
  have hlz : ¬ hs.length = 0 := by
    cases hs with
    | nil => exact absurd rfl hne
    | cons a t => simp
  simp only [analyzeHeadlines, if_neg hlz, if_pos hpos]

theorem claim_C10_witness :
    (["gold rally amid war fears"] : List String) ≠ []
    ∧ (1 ≤ (analyzeHeadline "war").weight
      ∧ ((["gold rally amid war fears"] : List String).length : ℚ)
          ≤ (sentimentTotals ["gold rally amid war fears"]).2.1
      ∧ 0 < (sentimentTotals ["gold rally amid war fears"]).2.1
      ∧ (analyzeHeadlines ["gold rally amid war fears"] 0).score
          = (sentimentTotals ["gold rally amid war fears"]).1
              / (sentimentTotals ["gold rally amid war fears"]).2.1) :=
  ⟨by decide, claim_C10_denominator "war" ["gold rally amid war fears"] 0 (by decide)⟩

/-- `QuickStats` of the chart component. -/
structure QuickStats where
  currentPrice : ℚ
  change24h : ℚ
  changePercent24h : ℚ
  weeklyHigh : ℚ
  weeklyLow : ℚ
  trend : Trend
  deriving Repr, DecidableEq

/-- One sample of the long reference window fetched by
`fetchQuickStats` (timestamp, close, high, low). -/
structure StatPoint where
  timestamp : ℚ
  close : ℚ
  high : ℚ
  low : ℚ
  deriving Repr, DecidableEq, Inhabited

/-- `fetchQuickStats` from the chart component, past the network layer:
`data24h` is the parsed long reference window (from either provider),
`now` the current clock, `prev` the `state.quickStats` before the call
(the early `return` on an empty window leaves the state untouched).
The JavaScript `Infinity` sentinel of the weekly-low scan is modelled
as `none`. -/
def fetchQuickStats (data24h : List StatPoint) (now : ℚ) (prev : Option QuickStats) :
    Option QuickStats :=
  if data24h.length = 0 then prev
  else
    let cutoff7d := now - 7 * 24 * 60 * 60 * 1000
    let last7d := data24h.filter (fun p => cutoff7d ≤ p.timestamp)
    let weeklyHigh := last7d.foldl (fun wh p => if wh < p.high then p.high else wh) 0
    let weeklyLow : Option ℚ := last7d.foldl
      (fun (wl : Option ℚ) p =>
        match wl with
        | none => if (0 : ℚ) < p.low then some p.low else none
        | some w => if p.low < w ∧ (0 : ℚ) < p.low then some p.low else some w)
      none
    let cutoff24h := now - 24 * 60 * 60 * 1000
    let last24h := data24h.filter (fun p => cutoff24h ≤ p.timestamp)
    let stats : ℚ × ℚ × ℚ :=
      if last24h.length ≠ 0 then
        let first := last24h.headD default
        let latest := last24h.getLastD default
        (latest.close, latest.close - first.close,
          (latest.close - first.close) / first.close * 100)
      else if data24h.length ≠ 0 then
        ((data24h.getLastD default).close, 0, 0)
      else (0, 0, 0)
    let currentPrice := stats.1
    let change24h := stats.2.1
    let changePercent24h := stats.2.2
    let trend : Trend :=
      if 0.3 < changePercent24h then .bullish
      else if changePercent24h < -0.3 then .bearish
      else .neutral
    some
      { currentPrice := currentPrice
        change24h := change24h
        changePercent24h := changePercent24h
        weeklyHigh := if 0 < weeklyHigh then weeklyHigh else currentPrice
        weeklyLow := match weeklyLow with | some w => w | none => currentPrice
        trend := trend }

/-- C8: an empty long reference window leaves the stats untouched
(null stays null, no error); a non-empty window with no point in the
trailing 24 hours reports the latest known close with zero change. -/
theorem claim_C8_quickstats (data24h : List StatPoint) (now : ℚ)
    (prev : Option QuickStats) (hne : data24h ≠ [])
    (h24 : data24h.filter (fun p => now - 24 * 60 * 60 * 1000 ≤ p.timestamp) = []) :
    fetchQuickStats [] now prev = prev
    ∧ fetchQuickStats [] now none = none
    ∧ ∃ qs, fetchQuickStats data24h now prev = some qs
        ∧ qs.currentPrice = (data24h.getLastD default).close
        ∧ qs.change24h = 0
        ∧ qs.changePercent24h = 0 := by
  refine ⟨rfl, rfl, ?_⟩
  have hlen : ¬ data24h.length = 0 := by
    cases data24h with
    | nil => exact absurd rfl hne
    | cons a t => simp
  rw [fetchQuickStats]
  simp only [if_neg hlen, h24]
  exact ⟨_, rfl, by simp [hlen], by simp [hlen], by simp [hlen]⟩

theorem claim_C8_witness :
    ([({ timestamp := 0, close := 5, high := 6, low := 4 } : StatPoint)] ≠ [])
    ∧ ([({ timestamp := 0, close := 5, high := 6, low := 4 } : StatPoint)].filter
        (fun p => (1000000000 : ℚ) - 24 * 60 * 60 * 1000 ≤ p.timestamp) = [])
    ∧ (fetchQuickStats [] 1000000000 none = none
      ∧ fetchQuickStats [] 1000000000 none = none
      ∧ ∃ qs, fetchQuickStats
            [({ timestamp := 0, close := 5, high := 6, low := 4 } : StatPoint)]
            1000000000 none = some qs
          ∧ qs.currentPrice
              = (([({ timestamp := 0, close := 5, high := 6, low := 4 } : StatPoint)]).getLastD
                  default).close
          ∧ qs.change24h = 0
          ∧ qs.changePercent24h = 0) :=
  ⟨by decide, by norm_num [List.filter],
    claim_C8_quickstats [{ timestamp := 0, close := 5, high := 6, low := 4 }]
      1000000000 none (by decide) (by norm_num [List.filter])⟩

/-- Requested symbol entry (`{ symbol, name, display }`). -/
structure SymbolMeta where
  symbol : String
  name : String
  display : String
  deriving Repr, DecidableEq

/-- `MarketQuote` proto message returned by `listMarketQuotes`. -/
structure StockQuote where
  symbol : String
  name : String
  display : String
  price : Option ℚ
  change : Option ℚ
  sparkline : List ℚ
  deriving Repr, DecidableEq

/-- `ListMarketQuotesResponse` proto message. -/
structure ListMarketQuotesResponse where
  quotes : List StockQuote
  finnhubSkipped : Bool
  skipReason : String
  deriving Repr, DecidableEq

/-- `emptyStockFallback` handed to the circuit breaker. -/
def emptyStockFallback : ListMarketQuotesResponse :=
  { quotes := [], finnhubSkipped := false, skipReason := "" }

/-- Legacy `MarketData` record. -/
structure MarketData where
  symbol : String
  name : String
  display : String
  price : Option ℚ
  change : Option ℚ
  sparkline : Option (List ℚ)
  deriving Repr, DecidableEq

/-- `MarketFetchResult` (`skipped`/`reason` are `undefined` ⇒ `none`). -/
structure MarketFetchResult where
  data : List MarketData
  skipped : Option Bool
  reason : Option String
  deriving Repr, DecidableEq

/-- `toMarketData`: proto → legacy adapter with meta overrides
(JavaScript `||` treats the empty string as absent). -/
def toMarketData (proto : StockQuote) (meta : Option SymbolMeta) : MarketData :=
  { symbol := proto.symbol
    name := match meta with
      | some m => if m.name ≠ "" then m.name else proto.name
      | none => proto.name
    display := match meta with
      | some m =>
        if m.display ≠ "" then m.display
        else if proto.display ≠ "" then proto.display else proto.symbol
      | none => if proto.display ≠ "" then proto.display else proto.symbol
    price := proto.price
    change := proto.change
    sparkline := if proto.sparkline.length > 0 then some proto.sparkline else none }

/-- `MOCK_DATA` fallback table of the market service. -/
def MOCK_DATA : List (String × MarketData) :=
  [("^VIX", { symbol := "^VIX", name := "VIX", display := "VIX", price := some 18.45, change := some (-1.25), sparkline := some [19.2, 18.9, 18.7, 18.5, 18.45] }),
   ("GC=F", { symbol := "GC=F", name := "Gold", display := "GOLD", price := some 5203.50, change := some (-0.43), sparkline := some [5180, 5195, 5210, 5215, 5203.5] }),
   ("CL=F", { symbol := "CL=F", name := "Crude Oil", display := "OIL", price := some 64.11, change := some (-2.08), sparkline := some [65.5, 65.2, 64.8, 64.3, 64.11] }),
   ("NG=F", { symbol := "NG=F", name := "Natural Gas", display := "NATGAS", price := some 2.80, change := some (-2.41), sparkline := some [2.88, 2.85, 2.83, 2.81, 2.80] }),
   ("SI=F", { symbol := "SI=F", name := "Silver", display := "SILVER", price := some 87.26, change := some 1.15, sparkline := some [86.2, 86.5, 86.8, 87.0, 87.26] }),
   ("HG=F", { symbol := "HG=F", name := "Copper", display := "COPPER", price := some 6.02, change := some (-0.82), sparkline := some [6.08, 6.06, 6.04, 6.03, 6.02] }),
   ("^GSPC", { symbol := "^GSPC", name := "S&P 500", display := "SPX", price := some 6125.40, change := some 0.28, sparkline := some [6100, 6110, 6115, 6120, 6125.40] }),
   ("^DJI", { symbol := "^DJI", name := "Dow Jones", display := "DOW", price := some 44850.60, change := some 0.15, sparkline := some [44700, 44750, 44800, 44830, 44850.60] }),
   ("^IXIC", { symbol := "^IXIC", name := "NASDAQ", display := "NDX", price := some 22738.45, change := some (-1.79), sparkline := some [23100, 22950, 22850, 22780, 22738.45] }),
   ("AAPL", { symbol := "AAPL", name := "Apple", display := "AAPL", price := some 187.52, change := some 1.23, sparkline := some [185, 186, 186.5, 187, 187.52] }),
   ("MSFT", { symbol := "MSFT", name := "Microsoft", display := "MSFT", price := some 423.85, change := some 0.87, sparkline := some [420, 421, 422, 423, 423.85] }),
   ("NVDA", { symbol := "NVDA", name := "NVIDIA", display := "NVDA", price := some 875.30, change := some 2.15, sparkline := some [860, 865, 870, 873, 875.30] }),
   ("GOOGL", { symbol := "GOOGL", name := "Alphabet", display := "GOOGL", price := some 175.28, change := some (-0.42), sparkline := some [176, 175.8, 175.5, 175.3, 175.28] }),
   ("AMZN", { symbol := "AMZN", name := "Amazon", display := "AMZN", price := some 198.45, change := some 0.95, sparkline := some [196, 197, 197.5, 198, 198.45] }),
   ("META", { symbol := "META", name := "Meta", display := "META", price := some 582.70, change := some 1.45, sparkline := some [575, 578, 580, 581, 582.70] }),
   ("BRK-B", { symbol := "BRK-B", name := "Berkshire", display := "BRK.B", price := some 415.20, change := some 0.28, sparkline := some [413, 414, 414.5, 415, 415.20] }),
   ("TSM", { symbol := "TSM", name := "TSMC", display := "TSM", price := some 142.85, change := some 1.82, sparkline := some [140, 141, 141.5, 142, 142.85] }),
   ("LLY", { symbol := "LLY", name := "Eli Lilly", display := "LLY", price := some 762.40, change := some 0.65, sparkline := some [758, 759, 760, 761, 762.40] }),
   ("TSLA", { symbol := "TSLA", name := "Tesla", display := "TSLA", price := some 248.75, change := some (-1.85), sparkline := some [252, 251, 250, 249, 248.75] }),
   ("AVGO", { symbol := "AVGO", name := "Broadcom", display := "AVGO", price := some 1245.60, change := some 1.12, sparkline := some [1230, 1235, 1240, 1243, 1245.60] }),
   ("WMT", { symbol := "WMT", name := "Walmart", display := "WMT", price := some 175.30, change := some 0.35, sparkline := some [174, 174.5, 175, 175.2, 175.30] }),
   ("JPM", { symbol := "JPM", name := "JPMorgan", display := "JPM", price := some 198.65, change := some 0.72, sparkline := some [196, 197, 198, 198.5, 198.65] }),
   ("V", { symbol := "V", name := "Visa", display := "V", price := some 285.40, change := some 0.48, sparkline := some [283, 284, 284.5, 285, 285.40] }),
   ("UNH", { symbol := "UNH", name := "UnitedHealth", display := "UNH", price := some 528.90, change := some (-0.32), sparkline := some [530, 529.5, 529, 528.9, 528.90] }),
   ("NVO", { symbol := "NVO", name := "Novo Nordisk", display := "NVO", price := some 125.45, change := some 1.95, sparkline := some [123, 124, 124.5, 125, 125.45] }),
   ("XOM", { symbol := "XOM", name := "Exxon", display := "XOM", price := some 108.20, change := some (-0.85), sparkline := some [109, 108.8, 108.5, 108.3, 108.20] }),
   ("MA", { symbol := "MA", name := "Mastercard", display := "MA", price := some 478.35, change := some 0.62, sparkline := some [475, 476, 477, 478, 478.35] }),
   ("ORCL", { symbol := "ORCL", name := "Oracle", display := "ORCL", price := some 152.80, change := some 0.95, sparkline := some [150, 151, 151.5, 152, 152.80] }),
   ("PG", { symbol := "PG", name := "P&G", display := "PG", price := some 168.45, change := some 0.22, sparkline := some [167, 167.5, 168, 168.3, 168.45] }),
   ("COST", { symbol := "COST", name := "Costco", display := "COST", price := some 892.60, change := some 0.75, sparkline := some [888, 889, 890, 891, 892.60] }),
   ("JNJ", { symbol := "JNJ", name := "J&J", display := "JNJ", price := some 158.30, change := some 0.18, sparkline := some [157, 157.5, 158, 158.2, 158.30] }),
   ("HD", { symbol := "HD", name := "Home Depot", display := "HD", price := some 378.90, change := some 0.42, sparkline := some [376, 377, 378, 378.5, 378.90] }),
   ("NFLX", { symbol := "NFLX", name := "Netflix", display := "NFLX", price := some 628.45, change := some 1.35, sparkline := some [620, 623, 625, 627, 628.45] }),
   ("BAC", { symbol := "BAC", name := "BofA", display := "BAC", price := some 38.75, change := some 0.55, sparkline := some [38, 38.3, 38.5, 38.6, 38.75] })]

/-- `symbolSetKey`: the sorted symbol set joined with commas. -/
def symbolSetKey (symbols : List String) : String :=
  String.intercalate "," (List.insertionSort (· ≤ ·) symbols)

/-- Read access to the module-level `lastSuccessfulByKey` map. -/
def lookupLastSuccessful (cache : List (String × List MarketData)) (key : String) :
    Option (List MarketData) :=
  (cache.find? (fun p => p.1 == key)).map Prod.snd

/-- Mock entries for the requested symbols, names/displays overridden
from the request. -/
def mockResultsFor (symbols : List SymbolMeta) : List MarketData :=
  symbols.filterMap fun sym =>
    ((MOCK_DATA.find? (fun p => p.1 == sym.symbol)).map Prod.snd).map
      fun mock => { mock with name := sym.name, display := sym.display }

/-- `fetchMultipleStocks` from the market service.  `resp` is the
outcome of `stockBreaker.execute` (`Except.error` models a rejection
reaching the `catch` block; the breaker's own fallback surfaces as
`Except.ok emptyStockFallback`).  Console logging and the `onBatch`
callback are I/O outside the model.  Returns the result together with
the updated `lastSuccessfulByKey` cache. -/
def fetchMultipleStocks (symbols : List SymbolMeta)
    (resp : Except Unit ListMarketQuotesResponse)
    (cache : List (String × List MarketData)) :
    MarketFetchResult × List (String × List MarketData) :=
  let allSymbolStrings := symbols.map (·.symbol)
  let setKey := symbolSetKey allSymbolStrings
  match resp with
  | .ok r =>
    let results := (r.quotes.filter (fun q => allSymbolStrings.contains q.symbol)).map
      fun q => toMarketData q (symbols.find? (fun s => s.symbol == q.symbol))
    let cache1 :=
      if results.length > 0 then
        (setKey, results) :: cache.filter (fun p => p.1 ≠ setKey)
      else cache
    let data0 :=
      if results.length > 0 then results
      else (lookupLastSuccessful cache setKey).getD []
    let data :=
      if data0.length = 0 ∨ ¬ data0.any (fun d => d.price.isSome) then
        let mockResults := mockResultsFor symbols
        if mockResults.length > 0 then mockResults else data0
      else data0
    ({ data := data
       skipped := if r.finnhubSkipped then some true else none
       reason := if r.skipReason ≠ "" then some r.skipReason else none }, cache1)
  | .error _ =>
    let mockResults := mockResultsFor symbols
    if mockResults.length > 0 then
      ({ data := mockResults, skipped := none, reason := none }, cache)
    else
      ({ data := (lookupLastSuccessful cache setKey).getD [], skipped := none,
         reason := none }, cache)

/-- Outcome of the chart's `fetchFromYahooFinance` fallback: a parsed
series, or a thrown error caught by `fetchData`. -/
inductive SecondaryOutcome
  | ok (points : List GoldPricePoint)
  | fail
  deriving Repr, DecidableEq

/-- Result of the provider-selection part of the chart's `fetchData`:
the adopted series (`none` models the caught-error state), the
`dataSource` tag, and how often the secondary provider was invoked. -/
structure FetchDataResult where
  data : Option (List GoldPricePoint)
  dataSource : String
  secondaryCalls : ℕ
  deriving Repr, DecidableEq

/-- The single invocation of `fetchFromYahooFinance` in the `else`
branch of `fetchData`. -/
def callSecondary : SecondaryOutcome → FetchDataResult
  | .ok ys => { data := some ys, dataSource := "yahoo", secondaryCalls := 1 }
  | .fail => { data := none, dataSource := "yahoo", secondaryCalls := 1 }

/-- Provider selection of the chart's `fetchData`: the CoinGecko XAUT
series (`primary`, `none` when the fetch returned null) is adopted
only when it yields more than 5 points; otherwise the Yahoo fallback
runs exactly once. -/
def fetchData (primary : Option (List GoldPricePoint)) (secondary : SecondaryOutcome) :
    FetchDataResult :=
  match primary with
  | some xs =>
    if xs.length > 5 then { data := some xs, dataSource := "xaut", secondaryCalls := 0 }
    else callSecondary secondary
  | none => callSecondary secondary

/-- C7 counterexample: both providers fail (the breaker hands back the
empty fallback response) and the in-process cache for the exact key is
empty, yet the orchestrator does not return a "no data" failure — it
substitutes the built-in mock entry for `GC=F`. -/
theorem claim_C7_counterexample :
    lookupLastSuccessful [] (symbolSetKey ["GC=F"]) = none
    ∧ (fetchMultipleStocks [{ symbol := "GC=F", name := "Gold", display := "GOLD" }]
        (.ok emptyStockFallback) []).1.data ≠ [] := by
  refine ⟨rfl, ?_⟩
  decide

/-- C7 (amended): the primary series is adopted only with more than 5
valid points and the secondary provider is then invoked exactly once,
its parsed result adopted; when both providers fail, a cached result
for the exact request key is served when it exists and has a valid
price, while with no cache entry the built-in mock data for the
requested symbols is substituted, an empty "no data" result arising
only when no mock exists either; in the thrown-error path mock data
takes precedence over the cache. -/
theorem claim_C7_orchestrator
    (ys xs zs : List GoldPricePoint) (sec : SecondaryOutcome)
    (symbols symbols2 : List SymbolMeta) (r : ListMarketQuotesResponse)
    (cache : List (String × List MarketData)) (cdata : List MarketData)
    (hys : 5 < ys.length) (hxs : xs.length ≤ 5) (hr : r.quotes = [])
    (hcache : lookupLastSuccessful cache
        (symbolSetKey (symbols.map (·.symbol))) = some cdata)
    (hvalid : cdata.any (fun d => d.price.isSome) = true) :
    fetchData (some ys) sec
      = { data := some ys, dataSource := "xaut", secondaryCalls := 0 }
    ∧ (fetchData (some xs) sec).secondaryCalls = 1
    ∧ (fetchData none sec).secondaryCalls = 1
    ∧ fetchData (some xs) (.ok zs)
        = { data := some zs, dataSource := "yahoo", secondaryCalls := 1 }
    ∧ (fetchMultipleStocks symbols (.ok r) cache).1.data = cdata
    ∧ (fetchMultipleStocks symbols2 (.ok r) []).1.data
        = (if (mockResultsFor symbols2).length > 0 then mockResultsFor symbols2 else [])
    ∧ (fetchMultipleStocks symbols (.error ()) cache).1.data
        = (if (mockResultsFor symbols).length > 0 then mockResultsFor symbols
           else cdata) := by
  have hxs5 : ¬ xs.length > 5 := by omega
  have hne : cdata ≠ [] := by
    rcases List.any_eq_true.mp hvalid with ⟨x, hx, _⟩
    intro hnil
    rw [hnil] at hx
    exact absurd hx (List.not_mem_nil x)
  refine ⟨?_, ?_, ?_, ?_, ?_, ?_, ?_⟩
  · rw [fetchData]
    simp only [if_pos hys]
  · rw [fetchData]
    simp only [if_neg hxs5]
    cases sec <;> rfl
  · cases sec <;> rfl
  · rw [fetchData]
    simp only [if_neg hxs5]
    rfl
  · rw [fetchMultipleStocks]
    simp only [hr, List.filter_nil, List.map_nil, List.length_nil, gt_iff_lt,
      lt_self_iff_false, if_false, hcache, Option.getD_some]
    split
    next hcond =>
      exfalso
      rcases hcond with hlen | hany
      · exact hne (List.length_eq_zero.mp hlen)
      · exact hany hvalid
    next hcond => rfl
  · rw [fetchMultipleStocks]
    simp only [hr, List.filter_nil, List.map_nil, List.length_nil, gt_iff_lt,
      lt_self_iff_false, if_false, lookupLastSuccessful, List.find?_nil,
      Option.map_none, Option.getD_none]
    rw [if_pos (by simp)]
    split <;> rfl
  · rw [fetchMultipleStocks]
    simp only [hcache, Option.getD_some]
    split <;> rfl

theorem claim_C7_witness :
    5 < ([{ timestamp := 1, openPrice := 1, high := 1, low := 1, close := 1, volume := 0 },
          { timestamp := 2, openPrice := 1, high := 1, low := 1, close := 2, volume := 0 },
          { timestamp := 3, openPrice := 1, high := 1, low := 1, close := 3, volume := 0 },
          { timestamp := 4, openPrice := 1, high := 1, low := 1, close := 4, volume := 0 },
          { timestamp := 5, openPrice := 1, high := 1, low := 1, close := 5, volume := 0 },
          { timestamp := 6, openPrice := 1, high := 1, low := 1, close := 6, volume := 0 }]
        : List GoldPricePoint).length
    ∧ ([] : List GoldPricePoint).length ≤ 5
    ∧ emptyStockFallback.quotes = []
    ∧ lookupLastSuccessful
        [(symbolSetKey ["GC=F"],
          [({ symbol := "GC=F", name := "Gold", display := "GOLD",
              price := some 5200, change := some 1, sparkline := none } : MarketData)])]
        (symbolSetKey
          (([{ symbol := "GC=F", name := "Gold", display := "GOLD" }]
            : List SymbolMeta).map (·.symbol)))
        = some [({ symbol := "GC=F", name := "Gold", display := "GOLD",
                   price := some 5200, change := some 1, sparkline := none } : MarketData)]
    ∧ ([({ symbol := "GC=F", name := "Gold", display := "GOLD",
           price := some 5200, change := some 1, sparkline := none } : MarketData)].any
        (fun d => d.price.isSome) = true)
    ∧ ((fetchMultipleStocks [{ symbol := "GC=F", name := "Gold", display := "GOLD" }]
          (.ok emptyStockFallback)
          [(symbolSetKey ["GC=F"],
            [({ symbol := "GC=F", name := "Gold", display := "GOLD",
                price := some 5200, change := some 1, sparkline := none } : MarketData)])]).1.data
        = [({ symbol := "GC=F", name := "Gold", display := "GOLD",
              price := some 5200, change := some 1, sparkline := none } : MarketData)]) := by
  have h := claim_C7_orchestrator
    [{ timestamp := 1, openPrice := 1, high := 1, low := 1, close := 1, volume := 0 },
     { timestamp := 2, openPrice := 1, high := 1, low := 1, close := 2, volume := 0 },
     { timestamp := 3, openPrice := 1, high := 1, low := 1, close := 3, volume := 0 },
     { timestamp := 4, openPrice := 1, high := 1, low := 1, close := 4, volume := 0 },
     { timestamp := 5, openPrice := 1, high := 1, low := 1, close := 5, volume := 0 },
     { timestamp := 6, openPrice := 1, high := 1, low := 1, close := 6, volume := 0 }]
    [] [] .fail
    [{ symbol := "GC=F", name := "Gold", display := "GOLD" }]
    [] emptyStockFallback
    [(symbolSetKey ["GC=F"],
      [({ symbol := "GC=F", name := "Gold", display := "GOLD",
          price := some 5200, change := some 1, sparkline := none } : MarketData)])]
    [({ symbol := "GC=F", name := "Gold", display := "GOLD",
        price := some 5200, change := some 1, sparkline := none } : MarketData)]
    (by decide) (by decide) rfl (by decide) (by decide)
  exact ⟨by decide, by decide, rfl, by decide, by decide, h.2.2.2.2.1⟩

end GoldTrader
